import Mathlib

/-!
Verification of the sentry plugin registry (`sentry/plugins/base.py`) and the
javascript serialization layer (`src/sentry/utils/javascript.py`).

Conventions of the embedding:
* Python `None` / attribute-not-set are `Option.none`; dynamically attached
  attributes are `Option`-typed structure fields.
* Datetimes are modelled by their Unix timestamp as an `Int`
  (`int(dt.strftime("%s"))` is then the identity on the representation);
  `datetime` objects are always truthy in Python, so truthiness of an
  `Option Int` datetime is `Option.isSome`.
* Output dictionaries are association lists `List (String × JVal)` with
  distinct keys; Python dict insertion of a fresh key is list append.
* Database / tsdb queries are external collaborators: they are modelled as an
  environment `DbEnv` of query functions taking the queried group ids.
-/

namespace Sentry

/-- JSON-safe values appearing in serialized output dictionaries. -/
inductive JVal
  | null
  | s (v : String)
  | n (v : Int)
  | b (v : Bool)
  | list (vs : List JVal)
  | obj (kvs : List (String × JVal))

/-- An output dictionary: association list with distinct keys. -/
abbrev Dict := List (String × JVal)

/-- Membership of a key in an output dictionary (`key in d` in Python). -/
def hasKey (d : Dict) (k : String) : Bool :=
  (List.lookup k d).isSome

/-- Status code constants from sentry.models.GroupStatus (external module; only
the distinctness of the constants matters to this code). -/
def GroupStatus.UNRESOLVED : Nat := 0

/-- Status code constant, see GroupStatus.UNRESOLVED. -/
def GroupStatus.RESOLVED : Nat := 1

/-- Status code constant, see GroupStatus.UNRESOLVED. -/
def GroupStatus.IGNORED : Nat := 2

/-- A Group record as read by GroupTransformer: the model fields are exactly
the attributes `attach_metadata` and `transform` access. `pk` and `id` are the
same database column in Django, modelled by the single field `id`.
`get_status()`, `get_legacy_message()` and `get_level_display()` are reads of
model state external to this code, modelled as fields holding their results.
The four trailing `Option` fields model the attributes dynamically attached by
`attach_metadata`; `none` means `hasattr` is false. -/
structure Group where
  id : Nat
  times_seen : Nat
  title : String
  legacy_message : String
  level : Int
  level_display : String
  logger : String
  org_slug : String
  project_name : String
  project_slug : String
  first_seen : Int
  last_seen : Int
  resolved_at : Option Int
  active_at : Option Int
  status : Nat
  is_public : Bool
  sort_value : Option Int
  is_bookmarked : Option Bool := none
  historical_data : Option (List Int) := none
  has_seen : Option Bool := none
  group_annotations : Option (List Dict) := none

/-- Runtime type of an entity handed to `transform` (dispatch key of the
`transformers` registry). -/
inductive EType
  | egroup
  | eother (tyName : String)
  deriving DecidableEq

/-- An entity flowing through `transform`: either a Group (the one type with a
registered transformer) or an object of some other runtime type. -/
inductive Entity
  | egroup (g : Group)
  | eother (tyName : String)

/-- Runtime type of an entity (`type(objects[0])` in the source). -/
def Entity.typeOf : Entity → EType
  | Entity.egroup _ => EType.egroup
  | Entity.eother t => EType.eother t

/-- Projection of an entity to a Group when it is one. -/
def Entity.asGroup : Entity → Option Group
  | Entity.egroup g => some g
  | Entity.eother _ => none

/-- The registered transformer classes. The module registers exactly one,
`GroupTransformer` for `Group`, via `@register(Group)`. -/
inductive TransformerTag
  | groupTransformer
  deriving DecidableEq

/-- The `transformers` registry as populated at module load:
`transformers = {}` followed by `@register(Group) class GroupTransformer`. -/
def transformers : EType → Option TransformerTag
  | EType.egroup => some TransformerTag.groupTransformer
  | EType.eother _ => none

/-- The request context as read by this module: `request.user.is_authenticated()`
and the optional `request.timezone` attribute. -/
structure Request where
  user_is_authenticated : Bool
  timezone : Option String

/-- Model of the external collaborator `datetime.isoformat()`: some rendering
of the instant. -/
def isoformat (dt : Int) : String := toString dt

/-- Model of the external collaborator `dt.astimezone(tz).isoformat()`: a
rendering of the same instant in the given zone. -/
def isoformat_tz (dt : Int) (tz : String) : String := toString dt ++ tz

/-- GroupTransformer.localize_datetime: ISO format, localized to the
request's timezone when the request carries one. -/
def GroupTransformer.localize_datetime (dt : Int) (request : Option Request) : String :=
  match request with
  | none => isoformat dt
  | some r =>
    match r.timezone with
    | some tz => isoformat_tz dt tz
    | none => isoformat dt

/-- Model of the external collaborator `django.utils.html.escape` on one
character: ampersand, less-than, greater-than, the double quote (code point
34) and the apostrophe (code point 39) become entities. Django applies the
five replacements sequentially with the ampersand first, which equals this
character-wise map. -/
def escapeChar (c : Char) : String :=
  if c = '&' then "&amp;"
  else if c = '<' then "&lt;"
  else if c = '>' then "&gt;"
  else if c.toNat = 34 then "&quot;"
  else if c.toNat = 39 then "&#39;"
  else String.singleton c

/-- Model of the external collaborator `django.utils.html.escape`. -/
def escape (s : String) : String :=
  String.join (s.toList.map escapeChar)

/-- Modelled from the spec: URL reversal `reverse("sentry-group", args=[...])`
(the URL configuration is repository code not under src/); the spec says the
permalink is "an absolute URL built from organization/project/group
identifiers". Any injective encoding serves. -/
def reverse_sentry_group (orgSlug projSlug : String) (id : Nat) : String :=
  "/" ++ orgSlug ++ "/" ++ projSlug ++ "/group/" ++ toString id ++ "/"

/-- Modelled from the spec: `sentry.utils.http.absolute_uri` (repository code
not under src/) makes the path absolute against the configured host. -/
def absolute_uri (path : String) : String :=
  "http://sentry.example.com" ++ path

/-- Modelled from the spec: `get_legacy_annotations` from
`sentry.templatetags.sentry_plugins` (repository code not under src/), the
"legacy plugin-driven annotation hook" populating `tags` when a request
context exists. Its value is plugin-defined; no claim depends on its content,
only on the presence of the `tags` key, so it is modelled as a constant. -/
def get_legacy_annotations (_obj : Group) (_request : Request) : JVal :=
  JVal.list []

/-- Modelled from the spec: `handle_before_events` from
`sentry.templatetags.sentry_plugins` (repository code not under src/)
"delegates to the Plugin Registry's before_events" preprocessing hook. It is
only invoked when a request context is present; modelled as the identity on
the group list. -/
def handle_before_events (_request : Request) (objects : List Group) : List Group :=
  objects

/-- Results of the external database / tsdb queries issued by
`attach_metadata`, as functions of the queried group id list:
`bookmarked` is the GroupBookmark query (ids of bookmarked groups among the
given ones), `seen` the GroupSeen query (group id, last_seen), `tsdbRange`
the tsdb.get_range result (per key, ordered (timestamp, count) pairs), and
`userValuesSeen` the GroupTagKey values_seen aggregate per group id. -/
structure DbEnv where
  bookmarked : List Nat → List Nat
  seen : List Nat → List (Nat × Int)
  tsdbRange : List Nat → List (Nat × List (Int × Int))
  userValuesSeen : List Nat → List (Nat × Nat)

/-- GroupTransformer.attach_metadata. `attach_foreignkey` and
`GroupMeta.objects.populate_cache` only populate external prefetch caches and
touch no modelled state. The queries guarded by
`request and request.user.is_authenticated() and objects` run only on that
condition; historical data is fetched only for a non-empty batch; the final
loop annotates every group unconditionally. -/
def GroupTransformer.attach_metadata (env : DbEnv) (objects : List Group)
    (request : Option Request) : List Group :=
  let objects := match request with
    | some r => if !objects.isEmpty then handle_before_events r objects else objects
    | none => objects
  let ids := objects.map (fun g => g.id)
  let authData : List Nat × List (Nat × Int) := match request with
    | some r =>
      if r.user_is_authenticated && !objects.isEmpty then
        (env.bookmarked ids, env.seen ids)
      else ([], [])
    | none => ([], [])
  let bookmarks := authData.1
  let seen_groups := authData.2
  let historical_data : List (Nat × List (Int × Int)) :=
    if !objects.isEmpty then env.tsdbRange ids else []
  let user_counts : List (Nat × Nat) := env.userValuesSeen ids
  objects.map (fun g =>
    let active_date : Int := match g.active_at with
      | some a => a
      | none => g.first_seen
    { g with
      is_bookmarked := some (bookmarks.contains g.id)
      historical_data := some (((List.lookup g.id historical_data).getD []).map (fun x => x.2))
      has_seen := some (decide (((List.lookup g.id seen_groups).getD active_date) > active_date))
      group_annotations := some [[("label", JVal.s "users"),
        ("count", JVal.n (Int.ofNat ((List.lookup g.id user_counts).getD 0)))]] })

/-- The fixed-key part of the dictionary built by GroupTransformer.transform
(the literal `d = { ... }`). -/
def GroupTransformer.base_entries (obj : Group) (request : Option Request) : Dict :=
  let status := obj.status
  let status_label :=
    if status = GroupStatus.RESOLVED then "resolved"
    else if status = GroupStatus.IGNORED then "ignored"
    else "unresolved"
  let version : Int := match obj.resolved_at with
    | some r => max r obj.last_seen
    | none => obj.last_seen
  [("id", JVal.s (toString obj.id)),
   ("count", JVal.s (toString obj.times_seen)),
   ("title", JVal.s (escape obj.title)),
   ("message", JVal.s (escape obj.legacy_message)),
   ("level", JVal.n obj.level),
   ("levelName", JVal.s (escape obj.level_display)),
   ("logger", JVal.s (escape obj.logger)),
   ("permalink", JVal.s (absolute_uri (reverse_sentry_group obj.org_slug obj.project_slug obj.id))),
   ("firstSeen", JVal.s (GroupTransformer.localize_datetime obj.first_seen request)),
   ("lastSeen", JVal.s (GroupTransformer.localize_datetime obj.last_seen request)),
   ("canResolve", match request with
     | some r => JVal.b r.user_is_authenticated
     | none => JVal.null),
   ("status", JVal.s status_label),
   ("isResolved", JVal.b (decide (obj.status = GroupStatus.RESOLVED))),
   ("isPublic", JVal.b obj.is_public),
   ("score", JVal.n (obj.sort_value.getD 0)),
   ("project", JVal.obj [("name", JVal.s (escape obj.project_name)),
     ("slug", JVal.s obj.project_slug)]),
   ("version", JVal.n version)]

/-- The conditional insertions after the dict literal: each `if hasattr(obj, a)`
adds a fresh key, and `if request` adds `tags`; insertion order as in the
source. -/
def GroupTransformer.extra_entries (obj : Group) (request : Option Request) : Dict :=
  (match obj.is_bookmarked with
    | some v => [("isBookmarked", JVal.b v)]
    | none => [])
  ++ (match obj.has_seen with
    | some v => [("hasSeen", JVal.b v)]
    | none => [])
  ++ (match obj.historical_data with
    | some v => [("historicalData", JVal.list (v.map JVal.n))]
    | none => [])
  ++ (match obj.group_annotations with
    | some v => [("annotations", JVal.list (v.map JVal.obj))]
    | none => [])
  ++ (match request with
    | some r => [("tags", get_legacy_annotations obj r)]
    | none => [])

/-- GroupTransformer.transform: the per-item serialization. -/
def GroupTransformer.transform (obj : Group) (request : Option Request) : Dict :=
  GroupTransformer.base_entries obj request ++ GroupTransformer.extra_entries obj request

/-- Argument of the module-level `transform`: Python `None`, a list (or
tuple), or a single non-sequence object. -/
inductive PyObjs
  | pynone
  | plist (xs : List Entity)
  | psingle (e : Entity)

/-- Result of the module-level `transform`: `None` back, the untouched object
list (no registered transformer), a list of dictionaries, or — on the
single-object path — one unwrapped entity or dictionary. -/
inductive PRes
  | vNone
  | vList (xs : List Entity)
  | vDicts (ds : List Dict)
  | vEntity (e : Entity)
  | vDict (d : Dict)

/-- The non-empty-sequence path of `transform`: look up a transformer for the
runtime type of the first element; if found, attach metadata to the batch and
map the per-item transform, else pass the objects through unchanged. A
non-Group element in a Group-headed batch would raise AttributeError in the
source; batches are homogeneous, so the Group branch projects the groups. -/
def transformSeq (env : DbEnv) (x : Entity) (xs : List Entity)
    (request : Option Request) : PRes :=
  match transformers (Entity.typeOf x) with
  | some TransformerTag.groupTransformer =>
    let gs := (x :: xs).filterMap Entity.asGroup
    PRes.vDicts ((GroupTransformer.attach_metadata env gs request).map
      (fun g => GroupTransformer.transform g request))
  | none => PRes.vList (x :: xs)

/-- The module-level `transform(objects, request=None)`. `ambient` is
`env.request` (the thread-local request `transform` falls back to when its
`request` argument is None). Falsy inputs (`None`, the empty list) are
returned unchanged; a single object is wrapped, sent down the sequence path
and the result indexed at 0. -/
def transform (env : DbEnv) (objects : PyObjs)
    (request ambient : Option Request) : PRes :=
  let request := match request with
    | none => ambient
    | some r => some r
  match objects with
  | PyObjs.pynone => PRes.vNone
  | PyObjs.plist [] => PRes.vList []
  | PyObjs.plist (x :: xs) => transformSeq env x xs request
  | PyObjs.psingle e =>
    match transformSeq env e [] request with
    | PRes.vDicts (d :: _) => PRes.vDict d
    | PRes.vList (e2 :: _) => PRes.vEntity e2
    | r => r

/-! Model of sentry/plugins/base.py. -/

/-- A plugin instance as seen by the registry operations: its slug and the two
optional configuration form attributes read by `has_project_conf` /
`has_site_conf`. -/
structure PluginInst where
  slug : String
  project_conf_form : Option String
  site_conf_form : Option String
  deriving DecidableEq

/-- IPlugin.has_project_conf: the project configuration form is not None. -/
def PluginInst.has_project_conf (p : PluginInst) : Bool :=
  p.project_conf_form.isSome

/-- IPlugin.has_site_conf: the site configuration form is not None. -/
def PluginInst.has_site_conf (p : PluginInst) : Bool :=
  p.site_conf_form.isSome

/-- Modelled from the spec: the state of sentry.utils.InstanceManager (not
under src/) is "an internal ordered set of names": an ordered list of class
paths without duplicates. `add` appends a name not yet present (re-registering
the same name is a no-op duplicate). -/
def InstanceManager.add (names : List String) (n : String) : List String :=
  if names.contains n then names else names ++ [n]

/-- Modelled from the spec: InstanceManager removal of a name — "removes the
class's qualified name; no error if absent" (a total operation). -/
def InstanceManager.remove (names : List String) (n : String) : List String :=
  names.filter (fun m => m ≠ n)

/-- Modelled from the spec: InstanceManager.all resolves each registered name
to a class and yields the (cached) instance per name in registration order;
`resolve` is the external import-and-instantiate step. -/
def InstanceManager.all (resolve : String → PluginInst) (names : List String) :
    List PluginInst :=
  names.map resolve

/-- A plugin class, identified by its module path and class name; register and
unregister key the registry on the string "module.name". -/
structure PluginCls where
  module : String
  clsName : String

/-- The qualified name `"%s.%s" % (cls.__module__, cls.__name__)`. -/
def PluginCls.qualName (c : PluginCls) : String :=
  c.module ++ "." ++ c.clsName

/-- PluginManager.register: adds the class's qualified name (and returns the
class unchanged, irrelevant to the registry state). -/
def PluginManager.register (names : List String) (cls : PluginCls) : List String :=
  InstanceManager.add names cls.qualName

/-- PluginManager.unregister: removes the class's qualified name. -/
def PluginManager.unregister (names : List String) (cls : PluginCls) : List String :=
  InstanceManager.remove names cls.qualName

/-- PluginManager.for_project: the plugins of all() whose has_project_conf()
holds (the source's generator with `continue` equals a filter). -/
def PluginManager.for_project (resolve : String → PluginInst) (names : List String) :
    List PluginInst :=
  (InstanceManager.all resolve names).filter (fun p => p.has_project_conf)

/-- PluginManager.for_site: the plugins of all() whose has_site_conf() holds. -/
def PluginManager.for_site (resolve : String → PluginInst) (names : List String) :
    List PluginInst :=
  (InstanceManager.all resolve names).filter (fun p => p.has_site_conf)

/-- PluginManager.get: linear scan over all() for an exact slug match; raises
KeyError when no plugin matches. -/
def PluginManager.get (plugins : List PluginInst) (slug : String) :
    Except Unit PluginInst :=
  match plugins with
  | [] => Except.error ()
  | p :: rest => if p.slug = slug then Except.ok p else PluginManager.get rest slug

/-- The loop of PluginManager.first, over the results the named method returns
per plugin in registration order, recording the 0-based indices of the plugins
actually invoked: each iteration invokes one plugin's method and the loop
returns as soon as a result is not None. -/
def firstLoop {α : Type} (i : Nat) : List (Option α) → List Nat × Option α
  | [] => ([], none)
  | r :: rest =>
    match r with
    | some v => ([i], some v)
    | none =>
      let p := firstLoop (i + 1) rest
      (i :: p.1, p.2)

/-- PluginManager.first: the returned value. `results` lists, per registered
plugin in registration order, the value the named method returns when
invoked. -/
def PluginManager.first {α : Type} (results : List (Option α)) : Option α :=
  (firstLoop 0 results).2

/-- The indices of the plugins whose method a PluginManager.first call
invokes. -/
def PluginManager.firstCalled {α : Type} (results : List (Option α)) : List Nat :=
  (firstLoop 0 results).1

/-- Specification-side count of invoked plugins: up to and including the first
whose result is not None, or all of them when every result is None. -/
def invokedCount {α : Type} : List (Option α) → Nat
  | [] => 0
  | some _ :: _ => 1
  | none :: rest => invokedCount rest + 1

/-- The request as read by plugin dispatch: its path. -/
structure PRequest where
  path : String

/-- The group as read by plugin dispatch: `group.project_id` and `group.pk`
(with `group.pk` the primary key, called `id` here). -/
structure PGroup where
  project_id : Nat
  id : Nat

/-- A plugin view's possible Python return values: None, an
HttpResponseRedirect, a well-formed Response built by self.render(), or a
value of any other runtime type, carrying its Python truthiness. -/
inductive ViewResult
  | pyNone
  | redirect (url : String)
  | rendered (template : String)
  | other (truthy : Bool)
  deriving DecidableEq

/-- Python truthiness of a view result: None is falsy; HttpResponseRedirect
and Response objects define no falsiness and are truthy. -/
def ViewResult.truthy : ViewResult → Bool
  | ViewResult.pyNone => false
  | ViewResult.redirect _ => true
  | ViewResult.rendered _ => true
  | ViewResult.other t => t

/-- The isinstance(response, HttpResponseRedirect) test on a view result. -/
def ViewResult.isRedirect : ViewResult → Bool
  | ViewResult.redirect _ => true
  | _ => false

/-- The isinstance(response, Response) test on a view result. -/
def ViewResult.isRendered : ViewResult → Bool
  | ViewResult.rendered _ => true
  | _ => false

/-- The test whether the view returned Python None. -/
def ViewResult.isPyNone : ViewResult → Bool
  | ViewResult.pyNone => true
  | _ => false

/-- Outcome of a get_view_response call: return None, return the redirect
unchanged, return the HttpResponse produced by response.respond(request,
project/group context), or raise NotImplementedError. -/
inductive VROutcome
  | noResponse
  | redirectOut (url : String)
  | httpOut (body : String)
  | raisedNotImplemented
  deriving DecidableEq

/-- Modelled from the spec: reverse("sentry-group-plugin-action",
args=(group.project_id, group.pk, slug)) — the URL configuration is repository
code not under src/; any injective encoding of the three arguments serves. -/
def IPlugin.get_url (project_id pk : Nat) (slug : String) : String :=
  "/" ++ toString project_id ++ "/group/" ++ toString pk ++ "/actions/" ++ slug ++ "/"

/-- Model of the external render_to_string reached through Response.respond:
some body derived from the template and the supplied project/group context. -/
def respond_body (template : String) (group : PGroup) : String :=
  template ++ "#" ++ toString group.project_id ++ "#" ++ toString group.id

/-- The mutable per-instance plugin state touched by get_view_response: the
slug, and the `selected` attribute (`none` models the attribute never having
been assigned). -/
structure IPluginState where
  slug : String
  selected : Option Bool := none
  deriving DecidableEq

/-- IPlugin.get_view_response, with `view` the plugin's overridable view
method; returns the updated plugin state and the outcome. The source assigns
self.selected first and returns when not selected; otherwise a falsy view
result returns None, a redirect is returned as-is, a Response is responded
with the project/group context, and anything else raises
NotImplementedError("Please use self.render() when returning responses."). -/
def IPlugin.get_view_response (view : PRequest → PGroup → ViewResult)
    (p : IPluginState) (request : PRequest) (group : PGroup) :
    IPluginState × VROutcome :=
  let sel := request.path == IPlugin.get_url group.project_id group.id p.slug
  let p := { p with selected := some sel }
  if !sel then (p, VROutcome.noResponse)
  else
    let response := view request group
    if !response.truthy then (p, VROutcome.noResponse)
    else
      match response with
      | ViewResult.redirect url => (p, VROutcome.redirectOut url)
      | ViewResult.rendered template =>
        (p, VROutcome.httpOut (respond_body template group))
      | _ => (p, VROutcome.raisedNotImplemented)

/-! Concrete fixtures for counterexamples and witnesses. -/

/-- An environment whose external queries all return empty results. -/
def env0 : DbEnv where
  bookmarked := fun _ => []
  seen := fun _ => []
  tsdbRange := fun _ => []
  userValuesSeen := fun _ => []

/-- A concrete group record. -/
def g0 : Group where
  id := 1
  times_seen := 2
  title := "t"
  legacy_message := "m"
  level := 10
  level_display := "warning"
  logger := "root"
  org_slug := "org"
  project_name := "proj"
  project_slug := "p"
  first_seen := 100
  last_seen := 200
  resolved_at := none
  active_at := none
  status := 0
  is_public := false
  sort_value := none

/-- The dictionaries of a transform result (empty on the non-dict shapes). -/
def PRes.dicts : PRes → List Dict
  | PRes.vDicts ds => ds
  | _ => []

/-! Helper lemmas. -/

/-- Lookup in an appended dictionary: the left part wins. -/
theorem lookup_append (a : String) (l₁ l₂ : Dict) :
    List.lookup a (l₁ ++ l₂) =
      match List.lookup a l₁ with
      | some v => some v
      | none => List.lookup a l₂ := by
  induction l₁ with
  | nil => simp
  | cons p t ih =>
    obtain ⟨k, v⟩ := p
    rw [List.cons_append, List.lookup_cons, List.lookup_cons]
    cases h : a == k <;> simp [ih]

/-- The loop of PluginManager.first started at index `i` invokes plugins
`i, i+1, ...` up to and including the first whose result is not None, and
yields the first non-None value. -/
theorem firstLoop_spec {α : Type} (results : List (Option α)) :
    ∀ i, firstLoop i results = (List.range' i (invokedCount results), results.findSome? id) := by
  induction results with
  | nil => intro i; rfl
  | cons r rest ih =>
    intro i
    cases r with
    | some v => rfl
    | none =>
      simp only [firstLoop, ih (i + 1)]
      rfl

/-! Claim theorems. -/

/-- C2 (amended): `first` invokes the named method on the registered plugins
in registration order only up to and including the first plugin returning a
non-null result — later plugins are not called — and returns that first
non-null result; when every plugin returns null, all plugins are invoked and
null is returned. -/
theorem c2_first_short_circuits {α : Type} (results : List (Option α)) :
    PluginManager.first results = results.findSome? id
    ∧ PluginManager.firstCalled results = List.range (invokedCount results)
    ∧ ((∀ r ∈ results, r = none) → PluginManager.first results = none) := by
  have h := firstLoop_spec results 0
  refine ⟨?_, ?_, ?_⟩
  · rw [PluginManager.first, h]
  · rw [PluginManager.firstCalled, h, List.range_eq_range']
  · intro hall
    rw [PluginManager.first, h]
    exact List.findSome?_eq_none_iff.mpr fun x hx => hall x hx

/-- C2 counterexample: with two registered plugins whose dispatched method
both return non-null, only the first plugin (index 0) is invoked — the second
is not called, refuting that every plugin is still called after a non-null
result — and the first non-null result is returned. -/
theorem c2_counterexample :
    PluginManager.firstCalled [some 1, some 2] = [0]
    ∧ PluginManager.firstCalled [some 1, some 2] ≠ [0, 1]
    ∧ PluginManager.first [some 1, some 2] = some 1 := by decide

/-- C2 witness: on two plugins both returning null, first returns null. -/
theorem c2_witness :
    PluginManager.first ([none, none] : List (Option Nat)) = none :=
  (c2_first_short_circuits [none, none]).2.2 (by decide)

/-- C4: `get(slug)` returns the first registered plugin instance whose slug
equals the argument, and raises KeyError (an error result) when no registered
plugin's slug matches; there is no fallback. -/
theorem c4_get_first_match_or_error (plugins : List PluginInst) (slug : String) :
    PluginManager.get plugins slug =
      match List.find? (fun p => p.slug == slug) plugins with
      | some p => Except.ok p
      | none => Except.error () := by
  induction plugins with
  | nil => rfl
  | cons p rest ih =>
    simp only [PluginManager.get, List.find?_cons]
    by_cases h : p.slug = slug
    · simp [h]
    · rw [if_neg h, beq_eq_false_iff_ne.mpr h, ih]

/-- C7: when the runtime type of the first element of a non-empty sequence has
no registered transformer, transform returns the sequence unchanged — the same
objects, unmodified, with no error. -/
theorem c7_unregistered_passthrough (env : DbEnv) (x : Entity) (xs : List Entity)
    (request ambient : Option Request)
    (h : transformers (Entity.typeOf x) = none) :
    transform env (PyObjs.plist (x :: xs)) request ambient = PRes.vList (x :: xs) := by
  simp [transform, transformSeq, h]

/-- C7 witness: a list headed by an object of unregistered type passes through
unchanged. -/
theorem c7_witness :
    transformers (Entity.typeOf (Entity.eother "Event")) = none
    ∧ transform env0 (PyObjs.plist [Entity.eother "Event"]) none none
        = PRes.vList [Entity.eother "Event"] :=
  ⟨rfl, c7_unregistered_passthrough env0 (Entity.eother "Event") [] none none rfl⟩

/-- C10: every get_view_response call assigns the shared plugin instance's
`selected` attribute to whether the request path equals the plugin's computed
URL for the group — for every view behavior and prior state, hence also on
calls that return no response. -/
theorem c10_selected_assigned_on_every_call
    (view : PRequest → PGroup → ViewResult) (p : IPluginState)
    (request : PRequest) (group : PGroup) :
    (IPlugin.get_view_response view p request group).1.selected =
      some (request.path == IPlugin.get_url group.project_id group.id p.slug) := by
  unfold IPlugin.get_view_response
  dsimp only
  split
  · rfl
  · split
    · rfl
    · split <;> rfl

/-- C3 counterexample: with the request path matching the plugin's URL, a view
returning the empty string — a non-null value that is neither a redirect nor a
render Response, but falsy — makes get_view_response return None silently
instead of raising the use-render() error: the claim fails as stated. -/
theorem c3_counterexample :
    (ViewResult.other false).isPyNone = false
    ∧ (ViewResult.other false).isRedirect = false
    ∧ (ViewResult.other false).isRendered = false
    ∧ (IPlugin.get_view_response (fun _ _ => ViewResult.other false)
        { slug := "s" } { path := IPlugin.get_url 1 2 "s" } { project_id := 1, id := 2 }).2
        = VROutcome.noResponse
    ∧ VROutcome.noResponse ≠ VROutcome.raisedNotImplemented := by decide

/-- C3 (amended): whenever the dispatched plugin's view returns a truthy value
that is neither a redirect response nor a well-formed render Response,
get_view_response raises the unimplemented-behavior (use render()) error; a
falsy non-null return value is instead treated as no response. -/
theorem c3_truthy_bad_response_raises
    (view : PRequest → PGroup → ViewResult) (p : IPluginState)
    (request : PRequest) (group : PGroup)
    (hsel : (request.path == IPlugin.get_url group.project_id group.id p.slug) = true)
    (ht : (view request group).truthy = true)
    (hr : (view request group).isRedirect = false)
    (hd : (view request group).isRendered = false) :
    (IPlugin.get_view_response view p request group).2
      = VROutcome.raisedNotImplemented := by
  unfold IPlugin.get_view_response
  dsimp only
  rw [hsel]
  cases hv : view request group with
  | pyNone => rw [hv] at ht; exact absurd ht (by decide)
  | redirect url => rw [hv] at hr; exact absurd hr (by simp [ViewResult.isRedirect])
  | rendered template => rw [hv] at hd; exact absurd hd (by simp [ViewResult.isRendered])
  | other t =>
    rw [hv] at ht
    simp only [ViewResult.truthy] at ht
    simp [ht, ViewResult.truthy]

/-- C3 witness: a selected plugin whose view returns a truthy non-redirect,
non-Response value makes get_view_response raise. -/
theorem c3_witness :
    (ViewResult.other true).truthy = true
    ∧ (ViewResult.other true).isRedirect = false
    ∧ (ViewResult.other true).isRendered = false
    ∧ (IPlugin.get_view_response (fun _ _ => ViewResult.other true)
        { slug := "s" } { path := IPlugin.get_url 1 2 "s" } { project_id := 1, id := 2 }).2
        = VROutcome.raisedNotImplemented :=
  ⟨rfl, rfl, rfl,
    c3_truthy_bad_response_raises (fun _ _ => ViewResult.other true)
      { slug := "s" } { path := IPlugin.get_url 1 2 "s" } { project_id := 1, id := 2 }
      (by decide) rfl rfl rfl⟩

/-- C9: registering a plugin class and then unregistering it leaves the
registry without that plugin — its instance no longer appears in all(),
for_project() or for_site() (with resolution injective: distinct registered
names resolve to distinct instances) — and unregistering a class that was
never registered raises no error and leaves the registry unchanged. -/
theorem c9_register_unregister (resolve : String → PluginInst)
    (names : List String) (cls : PluginCls)
    (hinj : Function.Injective resolve) :
    resolve cls.qualName ∉
      InstanceManager.all resolve (PluginManager.unregister (PluginManager.register names cls) cls)
    ∧ resolve cls.qualName ∉
      PluginManager.for_project resolve (PluginManager.unregister (PluginManager.register names cls) cls)
    ∧ resolve cls.qualName ∉
      PluginManager.for_site resolve (PluginManager.unregister (PluginManager.register names cls) cls)
    ∧ (cls.qualName ∉ names → PluginManager.unregister names cls = names) := by
  have hnotin : cls.qualName ∉ PluginManager.unregister (PluginManager.register names cls) cls := by
    simp [PluginManager.unregister, InstanceManager.remove, List.mem_filter]
  have hall : resolve cls.qualName ∉
      InstanceManager.all resolve (PluginManager.unregister (PluginManager.register names cls) cls) := by
    intro hmem
    obtain ⟨n, hn, hres⟩ := List.mem_map.mp hmem
    exact hnotin (hinj hres ▸ hn)
  refine ⟨hall, ?_, ?_, ?_⟩
  · intro hmem
    exact hall (List.mem_map.mpr
      (by
        obtain ⟨n, hn, hres⟩ := List.mem_map.mp (List.mem_of_mem_filter hmem)
        exact ⟨n, hn, hres⟩))
  · intro hmem
    exact hall (List.mem_map.mpr
      (by
        obtain ⟨n, hn, hres⟩ := List.mem_map.mp (List.mem_of_mem_filter hmem)
        exact ⟨n, hn, hres⟩))
  · intro habs
    simp only [PluginManager.unregister, InstanceManager.remove]
    exact List.filter_eq_self.mpr fun a ha => by
      simp only [decide_eq_true_eq]
      exact fun he => habs (he ▸ ha)

/-- C9 witness: for a concrete injective resolution, a register/unregister
round trip on the empty registry leaves the instance out of all(), and
unregistering from the empty registry raises no error and changes nothing. -/
theorem c9_witness :
    (fun n => PluginInst.mk n none none) (PluginCls.qualName ⟨"m", "C"⟩) ∉
      InstanceManager.all (fun n => PluginInst.mk n none none)
        (PluginManager.unregister (PluginManager.register [] ⟨"m", "C"⟩) ⟨"m", "C"⟩)
    ∧ PluginManager.unregister [] ⟨"m", "C"⟩ = [] :=
  ⟨(c9_register_unregister (fun n => PluginInst.mk n none none) [] ⟨"m", "C"⟩
      fun _ _ h => congrArg PluginInst.slug h).1,
   (c9_register_unregister (fun n => PluginInst.mk n none none) [] ⟨"m", "C"⟩
      fun _ _ h => congrArg PluginInst.slug h).2.2.2 (List.not_mem_nil _)⟩

/-- C5: the serialized version field equals the Unix timestamp of last_seen
when resolved_at is null or earlier than last_seen, and the Unix timestamp of
resolved_at when resolved_at is later than last_seen — the later of the two
timestamps. -/
theorem c5_version_is_later_timestamp (g : Group) (request : Option Request) :
    ((g.resolved_at = none ∨ ∃ r, g.resolved_at = some r ∧ r < g.last_seen) →
      List.lookup "version" (GroupTransformer.transform g request)
        = some (JVal.n g.last_seen))
    ∧ (∀ r, g.resolved_at = some r → g.last_seen < r →
      List.lookup "version" (GroupTransformer.transform g request)
        = some (JVal.n r)) := by
  have hkey : List.lookup "version" (GroupTransformer.transform g request)
      = some (JVal.n (match g.resolved_at with
        | some r => max r g.last_seen
        | none => g.last_seen)) := by
    rw [GroupTransformer.transform, lookup_append]
    simp [GroupTransformer.base_entries, List.lookup_cons]
  constructor
  · intro h
    rw [hkey]
    rcases h with hnone | ⟨r, hr, hlt⟩
    · rw [hnone]
    · rw [hr]
      simp [max_eq_right hlt.le]
  · intro r hr hlt
    rw [hkey, hr]
    simp [max_eq_left hlt.le]

/-- C5 witness: with resolved_at null, version is last_seen's timestamp; with
resolved_at later than last_seen, version is resolved_at's timestamp. -/
theorem c5_witness :
    List.lookup "version" (GroupTransformer.transform g0 none) = some (JVal.n 200)
    ∧ List.lookup "version"
        (GroupTransformer.transform { g0 with resolved_at := some 300 } none)
        = some (JVal.n 300) :=
  ⟨(c5_version_is_later_timestamp g0 none).1 (Or.inl rfl),
   (c5_version_is_later_timestamp { g0 with resolved_at := some 300 } none).2 300 rfl
     (by decide)⟩

/-- C8: the serialized title, message, levelName, logger and project.name
fields are the HTML-escaped form of the corresponding source values, and
escaping maps markup such as "<script>" to the escaped entity sequence. -/
theorem c8_free_text_fields_escaped (g : Group) (request : Option Request) :
    List.lookup "title" (GroupTransformer.transform g request)
      = some (JVal.s (escape g.title))
    ∧ List.lookup "message" (GroupTransformer.transform g request)
        = some (JVal.s (escape g.legacy_message))
    ∧ List.lookup "levelName" (GroupTransformer.transform g request)
        = some (JVal.s (escape g.level_display))
    ∧ List.lookup "logger" (GroupTransformer.transform g request)
        = some (JVal.s (escape g.logger))
    ∧ List.lookup "project" (GroupTransformer.transform g request)
        = some (JVal.obj [("name", JVal.s (escape g.project_name)),
            ("slug", JVal.s g.project_slug)])
    ∧ escape "<script>" = "&lt;script&gt;" := by
  refine ⟨?_, ?_, ?_, ?_, ?_, by decide⟩ <;>
    (rw [GroupTransformer.transform, lookup_append]; simp [GroupTransformer.base_entries, List.lookup_cons])

/-- Mapping into entities and projecting back to groups is the identity. -/
theorem filterMap_asGroup_map (gs : List Group) :
    List.filterMap (Entity.asGroup ∘ Entity.egroup) gs = gs := by
  induction gs with
  | nil => rfl
  | cons g t ih => simp [List.filterMap_cons, Entity.asGroup, Function.comp, ih]

/-- attach_metadata annotates every group of the batch with all four
attributes, for every request context (its final loop is unconditional). -/
theorem attach_metadata_attaches (env : DbEnv) (objects : List Group)
    (request : Option Request) :
    ∀ g ∈ GroupTransformer.attach_metadata env objects request,
      g.is_bookmarked.isSome = true ∧ g.has_seen.isSome = true
      ∧ g.historical_data.isSome = true ∧ g.group_annotations.isSome = true := by
  intro g hg
  unfold GroupTransformer.attach_metadata at hg
  simp only [List.mem_map] at hg
  obtain ⟨g1, hg1, rfl⟩ := hg
  simp

/-- The per-item transform of a group carrying all four attached attributes,
serialized without a request: the four optional keys are present and `tags`
is absent. -/
theorem transform_keys_of_attached (g : Group)
    (hb : g.is_bookmarked.isSome = true) (hs : g.has_seen.isSome = true)
    (hh : g.historical_data.isSome = true) (ha : g.group_annotations.isSome = true) :
    hasKey (GroupTransformer.transform g none) "isBookmarked" = true
    ∧ hasKey (GroupTransformer.transform g none) "hasSeen" = true
    ∧ hasKey (GroupTransformer.transform g none) "historicalData" = true
    ∧ hasKey (GroupTransformer.transform g none) "annotations" = true
    ∧ hasKey (GroupTransformer.transform g none) "tags" = false := by
  obtain ⟨b, hb⟩ := Option.isSome_iff_exists.mp hb
  obtain ⟨sn, hs⟩ := Option.isSome_iff_exists.mp hs
  obtain ⟨hdata, hh⟩ := Option.isSome_iff_exists.mp hh
  obtain ⟨an, ha⟩ := Option.isSome_iff_exists.mp ha
  refine ⟨?_, ?_, ?_, ?_, ?_⟩ <;>
    simp [hasKey, GroupTransformer.transform, GroupTransformer.base_entries,
      GroupTransformer.extra_entries, lookup_append, List.lookup_cons, hb, hs, hh, ha]

/-- C1 (amended): for every group batch serialized via transform with no
request context (request null and no ambient request), every resulting
dictionary still contains the keys isBookmarked, hasSeen, historicalData and
annotations — the batch step attaches those attributes unconditionally — and
only the optional key `tags` is absent. -/
theorem c1_no_request_only_tags_absent (env : DbEnv) (g : Group) (gs : List Group) :
    ∃ ds : List Dict,
      transform env (PyObjs.plist ((g :: gs).map Entity.egroup)) none none = PRes.vDicts ds
      ∧ ds ≠ []
      ∧ ∀ d ∈ ds,
          hasKey d "isBookmarked" = true ∧ hasKey d "hasSeen" = true
          ∧ hasKey d "historicalData" = true ∧ hasKey d "annotations" = true
          ∧ hasKey d "tags" = false := by
  refine ⟨(GroupTransformer.attach_metadata env (g :: gs) none).map
      (fun g1 => GroupTransformer.transform g1 none), ?_, ?_, ?_⟩
  · simp [transform, transformSeq, transformers, Entity.typeOf, Entity.asGroup,
      List.map_cons, List.filterMap_cons, filterMap_asGroup_map]
  · simp [GroupTransformer.attach_metadata]
  · intro d hd
    simp only [List.mem_map] at hd
    obtain ⟨g1, hg1, rfl⟩ := hd
    have h := attach_metadata_attaches env (g :: gs) none g1 hg1
    exact transform_keys_of_attached g1 h.1 h.2.1 h.2.2.1 h.2.2.2

/-- C1 counterexample: one concrete group serialized with no request context
yields a dictionary that does contain isBookmarked, hasSeen, historicalData
and annotations (only tags is absent), refuting that all five optional keys
are absent. -/
theorem c1_counterexample :
    ((transform env0 (PyObjs.plist [Entity.egroup g0]) none none).dicts.map
      (fun d => [hasKey d "isBookmarked", hasKey d "hasSeen",
        hasKey d "historicalData", hasKey d "annotations", hasKey d "tags"]))
      = [[true, true, true, true, false]] := by decide

/-- attach_metadata on a one-element batch yields a one-element batch. -/
theorem attach_metadata_single (env : DbEnv) (r : Option Request) (g : Group) :
    ∃ g1, GroupTransformer.attach_metadata env [g] r = [g1] := by
  cases r <;> exact ⟨_, rfl⟩

/-- C6: transform of None is None, transform of the empty list is the empty
list, and transform of a single (non-sequence) object delegates to the
sequence path and unwraps: it is the single transformed dictionary, not a
one-element list — the same dictionary the one-element-list call wraps. -/
theorem c6_transform_shapes (env : DbEnv) (request ambient : Option Request) (g : Group) :
    transform env PyObjs.pynone request ambient = PRes.vNone
    ∧ transform env (PyObjs.plist []) request ambient = PRes.vList []
    ∧ ∃ d : Dict,
        transform env (PyObjs.psingle (Entity.egroup g)) request ambient = PRes.vDict d
        ∧ transform env (PyObjs.plist [Entity.egroup g]) request ambient = PRes.vDicts [d] := by
  refine ⟨rfl, rfl, ?_⟩
  cases request with
  | none =>
    obtain ⟨g1, hg1⟩ := attach_metadata_single env ambient g
    refine ⟨GroupTransformer.transform g1 ambient, ?_, ?_⟩ <;>
      simp [transform, transformSeq, transformers, Entity.typeOf, Entity.asGroup,
        List.filterMap_cons, hg1]
  | some r =>
    obtain ⟨g1, hg1⟩ := attach_metadata_single env (some r) g
    refine ⟨GroupTransformer.transform g1 (some r), ?_, ?_⟩ <;>
      simp [transform, transformSeq, transformers, Entity.typeOf, Entity.asGroup,
        List.filterMap_cons, hg1]

end Sentry
